import Mathlib

/-!
Shallow embedding of `src/chartist-plugin-drag.js` (a Chartist.js plugin that
lets the user drag line-chart points to update the underlying data).

Modelling conventions:
* JS numbers are modelled as exact rationals (`ℚ`); the claims under study are
  algebraic, not floating-point claims.
* JS object reference identity is modelled by an `id : Nat` field on the
  structures that stand for DOM/axis objects; `!==` becomes `id ≠ id`.
* A JS plain object holding numeric fields (a data point) is modelled as an
  association list `Obj`; property read is first-match lookup, property write
  (`o[k] = v`) replaces the first matching entry or appends.
* DOM geometry: `getBoundingClientRect()` of an element is the stored `rect`.
  The marker element is a clone of the dragged point, so its untransformed
  rect coincides with the (static) dragged point's rect; after
  `setAttribute('transform', translate(dx, dy))` its rect origin is the
  requested `(x, y)`.  Class-list manipulation (`toggleClass`), styling and
  `preventDefault` calls are cosmetic and have no modelled state.
-/

/-- A JS object with numeric fields, as an association list from property
name to rational value.  Property lookup is first match. -/
abbrev Obj : Type := List (String × ℚ)

/-- Property read `o[k]`: first matching entry, `none` when the property is
absent (JS `undefined`). -/
def Obj.lookup (o : Obj) (k : String) : Option ℚ :=
  match o with
  | [] => none
  | (k₂, v) :: rest => if k₂ = k then some v else Obj.lookup rest k

/-- Property write `o[k] = v`: replaces the first entry with key `k`, or
appends a fresh entry when the key is absent. -/
def Obj.setField (o : Obj) (k : String) (v : ℚ) : Obj :=
  match o with
  | [] => [(k, v)]
  | (k₂, w) :: rest => if k₂ = k then (k₂, v) :: rest else (k₂, w) :: Obj.setField rest k v

/-- `Chartist.extend(\x7b\x7d, target, source)` restricted to flat numeric
objects: copy `target`, then assign every property of `source` onto it in
order (a shallow merge). -/
def Obj.extendWith (target : Obj) (source : Obj) : Obj :=
  source.foldl (fun t kv => Obj.setField t kv.1 kv.2) target

/-- A bounding client rect (pixel coordinates, y growing downwards). -/
structure Rect where
  left : ℚ
  top : ℚ
  right : ℚ
  bottom : ℚ
deriving DecidableEq, Repr

/-- Source `inRect` (lines 62–64): checks whether the point `(x, y)` lies
inside the rectangle, all four comparisons inclusive. -/
def inRect (rect : Rect) (x y : ℚ) : Bool :=
  x ≥ rect.left && x ≤ rect.right && y ≥ rect.top && y ≤ rect.bottom

/-- Logical bounds of one chart axis (`axis.range`). -/
structure Range where
  min : ℚ
  max : ℚ
deriving DecidableEq, Repr

/-- A chart axis object as supplied by the chart engine in a draw
notification: logical range plus pixel length.  `id` stands for the JS
object identity of the axis object. -/
structure Axis where
  id : Nat
  range : Range
  axisLength : ℚ
deriving DecidableEq, Repr

/-- The converter built by source `createConverter` (lines 87–100): stores
the two axis objects, the axis minima and the per-axis data-per-pixel
ratios, and exposes `convertX`/`convertY`. -/
structure Converter where
  axisX : Axis
  axisY : Axis
  minX : ℚ
  minY : ℚ
  ratioX : ℚ
  ratioY : ℚ
deriving DecidableEq, Repr

/-- Source `convertX` (line 97): `this.minX + x * this.ratioX`.  Note the
source really does add `minX`. -/
def Converter.convertX (c : Converter) (x : ℚ) : ℚ := c.minX + x * c.ratioX

/-- Source `convertY` (line 98): `this.minY + y * this.ratioY`. -/
def Converter.convertY (c : Converter) (y : ℚ) : ℚ := c.minY + y * c.ratioY

/-- Source `createConverter` (lines 87–100). -/
def createConverter (axisX axisY : Axis) : Converter :=
  { axisX := axisX
    axisY := axisY
    minX := axisX.range.min
    minY := axisY.range.min
    ratioX := (axisX.range.max - axisX.range.min) / axisX.axisLength
    ratioY := (axisY.range.max - axisY.range.min) / axisY.axisLength }

/-- A rendered point element.  `id` is the JS object identity; `rect` its
bounding client rect (static during a drag session — the original point does
not move, only the marker clone does); `indices` the
`(seriesIndex, pointIndex)` pair stored in the `ct:indices` attribute by the
draw handler (source lines 179–182). -/
structure Element where
  id : Nat
  rect : Rect
  indices : Nat × Nat
deriving DecidableEq, Repr

/-- The marker clone element: whether it still has a parent node (is in the
render tree) and its bounding-rect origin as driven by its translate
transform. -/
structure MarkerElem where
  attached : Bool
  pos : ℚ × ℚ
deriving DecidableEq, Repr

/-- The marker object returned by source `createMarker` (lines 102–131):
`element` is the clone (JS `null` before `create`), `reference` the dragged
source element. -/
structure Marker where
  element : Option MarkerElem
  reference : Option Element
deriving DecidableEq, Repr

/-- Source `marker.create` (lines 107–117): remember the reference, clone it
into the tree, and position the clone exactly over the source via
`setPosition(rect.left, rect.top)`.  The class toggles are cosmetic. -/
def Marker.create (_m : Marker) (point : Element) : Marker :=
  { reference := some point
    element := some { attached := true, pos := (point.rect.left, point.rect.top) } }

/-- Source `marker.destroy` (lines 119–122): remove the clone from its
parent unless it is already removed.  (Calling it on a marker that was never
created would throw in JS; that state is unreachable during a drag session
and is left as the identity here.) -/
def Marker.destroy (m : Marker) : Marker :=
  match m.element with
  | some e => if e.attached then { m with element := some { e with attached := false } } else m
  | none => m

/-- Source `marker.setPosition` (lines 124–129): re-derive the translate
offset against the reference element's current rect and re-apply the
transform.  Since the clone's untransformed rect equals the (static)
reference rect, the clone's resulting rect origin is exactly `(x, y)`. -/
def Marker.setPosition (m : Marker) (x y : ℚ) : Marker :=
  { m with element := m.element.map (fun e => { e with pos := (x, y) }) }

/-- Possible return values of the user's update callback.  The source vetoes
the commit exactly when the returned value is strictly (`===`) the boolean
`false` (line 237). -/
inductive JsRet where
  | bool (b : Bool)
  | undef
  | num (q : ℚ)
  | str (s : String)
deriving DecidableEq, Repr

/-- Strict-equality test `value === false`. -/
def JsRet.isStrictFalse : JsRet → Bool
  | .bool false => true
  | _ => false

/-- The value handed to the update callback, built by source `calcDelta`
(lines 156–174). -/
structure DeltaInfo where
  oldData : Obj
  newData : Obj
  changed : Bool
  converter : Converter
  dx : ℚ
  dy : ℚ

/-- Plugin options after the initialization of lines 34–36.  `axis` is the
raw `axis` option string; `axisXOpt`/`axisYOpt` model explicitly passed
(truthy) `axisX`/`axisY` options. -/
structure Options where
  axis : String
  axisXOpt : Bool
  axisYOpt : Bool
  updateWhileDragging : Bool
  updateCallback : Option (DeltaInfo → JsRet)

/-- Resolved `options.axisX` (line 35):
`options.axisX || options.axis.toLowerCase().indexOf('x') > -1`. -/
def Options.axisX (o : Options) : Bool :=
  o.axisXOpt || (o.axis.toList.map Char.toLower).contains 'x'

/-- Resolved `options.axisY` (line 36). -/
def Options.axisY (o : Options) : Bool :=
  o.axisYOpt || (o.axis.toList.map Char.toLower).contains 'y'

/-- The per-chart mutable state closed over by the `drag(chart)` function
(lines 147–153), together with the chart data and the observable effects we
track: `seriesData` is `chart.data.series` (each series' `data` array),
`renderCount` counts `chart.update()` calls and `cbCalls` counts update
callback invocations. -/
structure DragState where
  dragged : Option Element
  offset : ℚ × ℚ
  marker : Marker
  converter : Option Converter
  seriesData : List (List Obj)
  renderCount : Nat
  cbCalls : Nat

/-- Source `pointData(chart, point)` read path (lines 79–85): look the
series up by the element's first stored index and the data slot by the
second.  Out-of-range access (a JS crash) is `none`. -/
def readPoint (seriesData : List (List Obj)) (indices : Nat × Nat) : Option Obj :=
  match seriesData.get? indices.1 with
  | some s => s.get? indices.2
  | none => none

/-- Source `pointData(chart, point, data)` write path (line 83):
`series.data[indices[1]] = data`. -/
def writePoint (seriesData : List (List Obj)) (indices : Nat × Nat) (v : Obj) :
    List (List Obj) :=
  seriesData.set indices.1 ((seriesData.getD indices.1 []).set indices.2 v)

/-- Source `calcDelta` (lines 156–174): pixel delta between marker and
dragged element (`dy` sign-inverted so it increases towards the top), the
old data point, and the proposed new data point
`Chartist.extend(\x7b\x7d, data, \x7bx: data.x + convertX(dx), y: data.y + convertY(dy)\x7d)`.
Returns `none` in states where the JS would crash (no active drag, no
marker element, converter never built, bad indices or non-numeric fields);
all of these are unreachable in a well-formed session. -/
def calcDelta (st : DragState) : Option DeltaInfo :=
  match st.dragged, st.marker.element, st.converter with
  | some d, some me, some conv =>
    let dx := me.pos.1 - d.rect.left
    let dy := d.rect.top - me.pos.2
    match readPoint st.seriesData d.indices with
    | some data =>
      match data.lookup "x", data.lookup "y" with
      | some x0, some y0 =>
        some { oldData := data
               newData := Obj.extendWith data
                 [("x", x0 + conv.convertX dx), ("y", y0 + conv.convertY dy)]
               changed := decide (dx ≠ 0 ∨ dy ≠ 0)
               converter := conv
               dx := dx
               dy := dy }
      | _, _ => none
    | none => none
  | _, _, _ => none

/-- One draw notification (source lines 177–187), as far as the converter
is concerned.  `isPoint` models `data.type === 'point'`.  The handler also
stores `seriesIndex + ',' + index` in the element's `ct:indices` attribute;
that tagging is modelled by the `Element.indices` field. -/
structure DrawData where
  isPoint : Bool
  axisX : Axis
  axisY : Axis

/-- Converter maintenance of the draw handler (lines 183–185): rebuild the
converter when either incoming axis object differs by reference
(`!==`, modelled by `id`) from the stored one; `none` models the initial
empty-object converter (line 150), whose missing `axisX` property compares
unequal to any axis object. -/
def drawStep (conv : Option Converter) (d : DrawData) : Option Converter :=
  if d.isPoint then
    match conv with
    | some c =>
      if d.axisX.id ≠ c.axisX.id ∨ d.axisY.id ≠ c.axisY.id then
        some (createConverter d.axisX d.axisY)
      else some c
    | none => some (createConverter d.axisX d.axisY)
  else conv

/-- Source `mousedown touchstart` handler (lines 212–226), fired on an
element matching the point selector.  `button` is `event.button`
(`!event.button` is true exactly for the primary button / unsupported
property, modelled as `0`).  Note the source has no guard on `dragged`:
the handler always overwrites the session state when the button test
passes.  Class toggles and `preventDefault` are cosmetic. -/
def startDrag (st : DragState) (target : Element) (button : Nat)
    (clientX clientY : ℚ) : DragState :=
  if button ≠ 0 then st
  else
    { st with
      dragged := some target
      offset := (target.rect.left - clientX, target.rect.top - clientY)
      marker := st.marker.create target }

/-- Source `mousemove touchmove` handler (lines 253–270): while dragging,
move the marker to pointer position plus stored offset, but freeze each
coordinate at the dragged element's current rect when its axis is not
enabled.  The `updateWhileDragging` branch only sets a display attribute on
the marker and dispatches synthetic mouse events (it mutates no modelled
state), so it is omitted. -/
def moveDrag (opts : Options) (st : DragState) (clientX clientY : ℚ) : DragState :=
  match st.dragged with
  | none => st
  | some d =>
    let x := if opts.axisX then clientX + st.offset.1 else d.rect.left
    let y := if opts.axisY then clientY + st.offset.2 else d.rect.top
    { st with marker := st.marker.setPosition x y }

/-- Source `mouseup touchend` handler (lines 229–250): when a drag is
active and the drop point is inside `dragRect` (the `getDragRect` result),
compute the delta and, if it is non-zero and the configured update callback
does not return strictly `false`, write the new data point and request one
re-render; then unconditionally destroy the marker and clear the dragged
reference.  The highlight-restoring and class toggles are cosmetic.
`calcDelta` returning `none` is a JS crash state, unreachable in a
well-formed session, and left as a no-update here. -/
def endDrag (opts : Options) (st : DragState) (clientX clientY : ℚ)
    (dragRect : Rect) : DragState :=
  match st.dragged with
  | none => st
  | some d =>
    let core :=
      if inRect dragRect clientX clientY then
        match calcDelta st with
        | some delta =>
          if delta.changed then
            match opts.updateCallback with
            | some f =>
              let st₁ := { st with cbCalls := st.cbCalls + 1 }
              if (f delta).isStrictFalse then st₁
              else
                { st₁ with
                  seriesData := writePoint st₁.seriesData d.indices delta.newData
                  renderCount := st₁.renderCount + 1 }
            | none =>
              { st with
                seriesData := writePoint st.seriesData d.indices delta.newData
                renderCount := st.renderCount + 1 }
          else st
        | none => st
      else st
    { core with marker := core.marker.destroy, dragged := none }

/-- A chart as seen by the plugin entry point: whether it is a
`Chartist.Line` instance, and its data series. -/
structure Chart where
  isLine : Bool
  series : List (List Obj)

/-- The event registrations and initial closure state the `drag(chart)`
function performs when it does not bail out. -/
structure Binding where
  listeners : List String
  st : DragState

/-- Initial closure state of `drag(chart)` (lines 147–153): no dragged
element, marker not yet created, converter the empty object. -/
def initState (c : Chart) : DragState :=
  { dragged := none
    offset := (0, 0)
    marker := { element := none, reference := none }
    converter := none
    seriesData := c.series
    renderCount := 0
    cbCalls := 0 }

/-- Source `drag(chart)` entry (lines 141–271): bail out (attach nothing,
touch nothing) unless the chart is a `Chartist.Line` instance; otherwise
register the draw handler and the six pointer-event registrations and set
up the closure state.  Returns the binding made (if any) and the chart,
which is never mutated at activation time. -/
def dragAttach (c : Chart) : Option Binding × Chart :=
  if c.isLine then
    (some
      { listeners :=
          ["draw", "mouseover", "mouseout", "mousedown", "mousedown touchstart",
            "mouseup touchend", "mousemove touchmove"]
        st := initState c }, c)
  else (none, c)

/-! ## Fixtures used by the concrete counterexample and witness theorems -/

/-- An x axis whose logical range starts at a non-zero minimum. -/
def axisXmin5 : Axis := { id := 1, range := { min := 5, max := 15 }, axisLength := 10 }

/-- A y axis with zero minimum. -/
def axisYmin0 : Axis := { id := 2, range := { min := 0, max := 10 }, axisLength := 10 }

/-- An x axis with zero minimum. -/
def axisXmin0 : Axis := { id := 1, range := { min := 0, max := 10 }, axisLength := 10 }

/-- A y axis whose logical range starts at a non-zero minimum. -/
def axisYmin5 : Axis := { id := 2, range := { min := 5, max := 15 }, axisLength := 10 }

/-- A rendered point at pixel origin, tagged as series 0, point 0. -/
def pt00 : Element :=
  { id := 0, rect := { left := 0, top := 0, right := 0, bottom := 0 }, indices := (0, 0) }

/-- A drop rectangle encompassing every pointer position used below. -/
def wideRect : Rect := { left := -100, top := -100, right := 100, bottom := 100 }

/-- A one-series, one-point chart whose point is (0, 0) with an extra
pass-through field. -/
def chartOnePoint : Chart := { isLine := true, series := [[[("x", 0), ("y", 0), ("meta", 7)]]] }

/-! ## Theorems for the claims -/

/-- C1: the claim says `convertX`/`convertY` are linear with no offset term
(`convert(0) = 0`, `convert(k*d) = k*convert(d)`,
`convert(d) = d*(max-min)/axisLength`).  The source adds the axis minimum
(`this.minX + x * this.ratioX`, line 97), so on an axis with range
min 5, max 15 and pixel length 10 the code gives `convertX 0 = 5 ≠ 0`,
`convertX 2 = 7 ≠ 12 = 2 * convertX 1`, and
`convertX 1 = 6 ≠ 1 = 1 * (15-5)/10`: all three claimed identities fail. -/
theorem convertX_offset_violates_linearity :
    (createConverter axisXmin5 axisYmin0).convertX 0 = 5 ∧ (5 : ℚ) ≠ 0 ∧
    (createConverter axisXmin5 axisYmin0).convertX 2 ≠
      2 * (createConverter axisXmin5 axisYmin0).convertX 1 ∧
    (createConverter axisXmin5 axisYmin0).convertX 1 ≠ 1 * ((15 - 5) / 10) := by
  refine ⟨by norm_num [createConverter, Converter.convertX, axisXmin5, axisYmin0], by norm_num,
    ?_, ?_⟩ <;> norm_num [createConverter, Converter.convertX, axisXmin5, axisYmin0]

/-- C7: marker destruction is idempotent and detaches the clone from the
render tree: for a marker whose clone element exists, a second `destroy`
is a no-op and after `destroy` the element is no longer attached. -/
theorem marker_destroy_idempotent_detaches (m : Marker) (e : MarkerElem)
    (h : m.element = some e) :
    (m.destroy).destroy = m.destroy ∧
    ∃ e₂, (m.destroy).element = some e₂ ∧ e₂.attached = false := by
  cases m with
  | mk elem ref =>
    cases h
    cases e with
    | mk att pos =>
      cases att
      · simp [Marker.destroy]
      · simp [Marker.destroy]

/-- C7 witness: the theorem applied to a freshly created marker, whose
clone ends up detached with its position intact. -/
theorem marker_destroy_idempotent_detaches_witness :
    ((({ element := none, reference := none } : Marker).create pt00).destroy).destroy =
      (({ element := none, reference := none } : Marker).create pt00).destroy ∧
    ((({ element := none, reference := none } : Marker).create pt00).destroy).element =
      some { attached := false, pos := (0, 0) } :=
  ⟨(marker_destroy_idempotent_detaches
      (({ element := none, reference := none } : Marker).create pt00)
      { attached := true, pos := (0, 0) } rfl).1, rfl⟩

/-- C10: on a chart that is not a `Chartist.Line` instance the plugin entry
bails out before doing anything: no listeners are attached, no closure
state (converter, marker, drag reference) is built, and the chart — its
data included — is returned unchanged. -/
theorem drag_on_non_line_chart_is_noop (c : Chart) (h : c.isLine = false) :
    dragAttach c = (none, c) := by
  simp [dragAttach, h]

/-- C10 witness: the theorem applied to a concrete non-line chart. -/
theorem drag_on_non_line_chart_is_noop_witness :
    dragAttach { isLine := false, series := [[[("x", 1)]]] } =
      (none, { isLine := false, series := [[[("x", 1)]]] }) :=
  drag_on_non_line_chart_is_noop { isLine := false, series := [[[("x", 1)]]] } rfl

/-- C9: on a point draw notification the converter is rebuilt exactly when
one of the incoming axis objects differs by reference from the stored ones,
and is left as the very same object otherwise; consequently a whole
sequence of draw notifications whose axis identities match the current
converter leaves the converter untouched. -/
theorem converter_rebuilt_iff_axis_identity_changes (c : Converter) (d : DrawData)
    (hp : d.isPoint = true) :
    (drawStep (some c) d =
      if d.axisX.id ≠ c.axisX.id ∨ d.axisY.id ≠ c.axisY.id
      then some (createConverter d.axisX d.axisY)
      else some c) ∧
    (∀ ds : List DrawData,
      (∀ d₂ ∈ ds, d₂.axisX.id = c.axisX.id ∧ d₂.axisY.id = c.axisY.id) →
      ds.foldl drawStep (some c) = some c) := by
  constructor
  · simp [drawStep, hp]
  · intro ds hds
    induction ds with
    | nil => rfl
    | cons hd tl ih =>
      have hhd := hds hd (List.mem_cons_self hd tl)
      have hstep : drawStep (some c) hd = some c := by
        simp [drawStep, hhd.1, hhd.2]
      rw [List.foldl_cons, hstep]
      exact ih (fun d₂ hmem => hds d₂ (List.mem_cons_of_mem hd hmem))

/-- C9 witness: a one-notification sequence whose axis objects are the very
ones stored in a concrete converter leaves that converter unchanged. -/
theorem converter_rebuilt_iff_axis_identity_changes_witness :
    [({ isPoint := true, axisX := axisXmin0, axisY := axisYmin5 } : DrawData)].foldl drawStep
        (some (createConverter axisXmin0 axisYmin5)) =
      some (createConverter axisXmin0 axisYmin5) := by
  have h := converter_rebuilt_iff_axis_identity_changes (createConverter axisXmin0 axisYmin5)
    { isPoint := true, axisX := axisXmin0, axisY := axisYmin5 } rfl
  exact h.2 [{ isPoint := true, axisX := axisXmin0, axisY := axisYmin5 }]
    (by intro d₂ hd; rw [List.mem_singleton] at hd; subst hd; exact ⟨rfl, rfl⟩)

/-- A state in the middle of a drag session on `pt00`: the session fields
are those `startDrag` produces for a pointer-down at pixel (10, 10). -/
def midSessionState : DragState :=
  startDrag { initState chartOnePoint with converter := some (createConverter axisXmin0 axisYmin5) }
    pt00 0 10 10

/-- A second rendered point, distinct from `pt00`, tagged (0, 1). -/
def pt01 : Element :=
  { id := 3, rect := { left := 20, top := 20, right := 20, bottom := 20 }, indices := (0, 1) }

/-- C3 counterexample: the claim says a pointer-down while a session is
active is a no-op (the dragged reference, marker and grab offset stay those
of the original session).  The source handler (lines 212–226) has no such
guard: with a session active on `pt00`, a primary-button pointer-down on
`pt01` at pixel (5, 5) overwrites the dragged reference, the grab offset
and the marker. -/
theorem second_pointer_down_not_ignored :
    midSessionState.dragged = some pt00 ∧
    (startDrag midSessionState pt01 0 5 5).dragged = some pt01 ∧
    some pt01 ≠ some pt00 ∧
    (startDrag midSessionState pt01 0 5 5).offset ≠ midSessionState.offset ∧
    (startDrag midSessionState pt01 0 5 5).marker.reference = some pt01 := by
  refine ⟨rfl, rfl, by decide, ?_, rfl⟩
  norm_num [startDrag, midSessionState, initState, pt00, pt01, Prod.ext_iff]

/-- C3 amended: a primary-button pointer-down while a session is active is
not ignored — it replaces the session: the dragged reference, grab offset
and marker become those of the new target (the previous marker clone is
left behind), while the chart data is unchanged. -/
theorem second_pointer_down_replaces_session (st : DragState) (d₀ target : Element)
    (cx cy : ℚ) (_h : st.dragged = some d₀) :
    (startDrag st target 0 cx cy).dragged = some target ∧
    (startDrag st target 0 cx cy).offset =
      (target.rect.left - cx, target.rect.top - cy) ∧
    (startDrag st target 0 cx cy).marker = st.marker.create target ∧
    (startDrag st target 0 cx cy).seriesData = st.seriesData := by
  refine ⟨rfl, rfl, rfl, rfl⟩

/-- C3 amended witness: the amended theorem applied to the concrete
mid-session state and second point. -/
theorem second_pointer_down_replaces_session_witness :
    (startDrag midSessionState pt01 0 5 5).dragged = some pt01 ∧
    (startDrag midSessionState pt01 0 5 5).offset =
      (pt01.rect.left - 5, pt01.rect.top - 5) ∧
    (startDrag midSessionState pt01 0 5 5).marker = midSessionState.marker.create pt01 ∧
    (startDrag midSessionState pt01 0 5 5).seriesData = midSessionState.seriesData :=
  second_pointer_down_replaces_session midSessionState pt00 pt01 5 5 rfl

/-! ## Helper lemmas -/

/-- Assigning one property of an object leaves every other property
unchanged. -/
theorem Obj.lookup_setField_ne (o : Obj) (k k₂ : String) (v : ℚ) (h : k₂ ≠ k) :
    (o.setField k v).lookup k₂ = o.lookup k₂ := by
  induction o with
  | nil => simp [Obj.setField, Obj.lookup, Ne.symm h]
  | cons hd tl ih =>
    obtain ⟨a, w⟩ := hd
    by_cases hak : a = k
    · subst hak
      simp [Obj.setField, Obj.lookup, Ne.symm h]
    · simp [Obj.setField, Obj.lookup, hak, ih]

/-- Writing a data slot that was readable makes that slot read back the
written value. -/
theorem readPoint_writePoint (sd : List (List Obj)) (idx : Nat × Nat) (p v : Obj)
    (h : readPoint sd idx = some p) :
    readPoint (writePoint sd idx v) idx = some v := by
  obtain ⟨i, j⟩ := idx
  unfold readPoint writePoint at *
  cases hs : sd.get? i with
  | none => rw [hs] at h; cases h
  | some s =>
    rw [hs] at h
    have h1 : i < sd.length := (List.get?_eq_some.mp hs).1
    have h2 : j < s.length := (List.get?_eq_some.mp h).1
    have hD : sd.getD i [] = s := by
      rw [List.getD_eq_getD_get?, hs]; rfl
    rw [hD, List.get?_set_eq_of_lt _ h1]
    exact List.get?_set_eq_of_lt _ h2

/-- Anatomy of a successful `calcDelta`: it read the dragged element, the
marker clone, the converter and the data point, and built `newData` as the
shallow merge of the old point with the converted x/y values. -/
theorem calcDelta_spec (st : DragState) (delta : DeltaInfo)
    (hdelta : calcDelta st = some delta) :
    ∃ d me conv x0 y0,
      st.dragged = some d ∧ st.marker.element = some me ∧ st.converter = some conv ∧
      readPoint st.seriesData d.indices = some delta.oldData ∧
      delta.oldData.lookup "x" = some x0 ∧ delta.oldData.lookup "y" = some y0 ∧
      delta.newData = Obj.extendWith delta.oldData
        [("x", x0 + conv.convertX (me.pos.1 - d.rect.left)),
         ("y", y0 + conv.convertY (d.rect.top - me.pos.2))] := by
  unfold calcDelta at hdelta
  split at hdelta
  case _ d me conv hd hme hconv =>
    split at hdelta
    case _ data hdata =>
      split at hdelta
      case _ x0 y0 hx hy =>
        cases hdelta
        exact ⟨d, me, conv, x0, y0, hd, hme, hconv, hdata, hx, hy, rfl⟩
      case _ => cases hdelta
    case _ => cases hdelta
  case _ => cases hdelta

/-- Lowercasing the character x is the identity (used to evaluate the
resolved axis options on concrete option strings). -/
theorem char_x_toLower : 'x'.toLower = 'x' := rfl

/-- Lowercasing the character y is the identity. -/
theorem char_y_toLower : 'y'.toLower = 'y' := rfl

/-- Options with both axes enabled via axis set to xy and no callback. -/
def optsXY : Options :=
  { axis := "xy", axisXOpt := false, axisYOpt := false, updateWhileDragging := true,
    updateCallback := none }

/-- Options with only the y axis enabled (axis set to y) and no callback. -/
def optsY : Options :=
  { axis := "y", axisXOpt := false, axisYOpt := false, updateWhileDragging := true,
    updateCallback := none }

/-- Options with both axes enabled and an update callback that always
returns strictly false. -/
def optsVeto : Options :=
  { axis := "xy", axisXOpt := false, axisYOpt := false, updateWhileDragging := true,
    updateCallback := some (fun _ => JsRet.bool false) }

/-- Idle state after the first draw pass: x axis min 0, y axis min 5. -/
def sessionReady : DragState :=
  { initState chartOnePoint with converter := some (createConverter axisXmin0 axisYmin5) }

/-- Mid-drag state: pointer-down on `pt00` at pixel (0, 0), then a move to
pixel (1, 1) with both axes enabled. -/
def cycleMid : DragState := moveDrag optsXY (startDrag sessionReady pt00 0 0 0) 1 1

/-- End of that cycle: pointer-up at (1, 1), inside the drop rectangle. -/
def cycleEnd : DragState := endDrag optsXY cycleMid 1 1 wideRect

/-- A throwaway `DeltaInfo` used only as the default of `Option.getD`. -/
def defaultDelta : DeltaInfo :=
  { oldData := [], newData := [], changed := false,
    converter := createConverter axisXmin0 axisYmin5, dx := 0, dy := 0 }

/-- The delta computed at the end of the concrete cycle. -/
def cycleDelta : DeltaInfo := (calcDelta cycleMid).getD defaultDelta

/-- C4: a drag session whose pointer-up lands outside the drop rectangle
commits nothing: the series data, the callback-invocation count and the
re-render count are unchanged, while cleanup still happens — the marker is
destroyed and the dragged reference cleared (idle). -/
theorem drop_outside_region_discards (opts : Options) (st : DragState) (d : Element)
    (cx cy : ℚ) (r : Rect) (h : st.dragged = some d)
    (hout : inRect r cx cy = false) :
    (endDrag opts st cx cy r).seriesData = st.seriesData ∧
    (endDrag opts st cx cy r).cbCalls = st.cbCalls ∧
    (endDrag opts st cx cy r).renderCount = st.renderCount ∧
    (endDrag opts st cx cy r).dragged = none ∧
    (endDrag opts st cx cy r).marker = st.marker.destroy := by
  simp [endDrag, h, hout]

/-- C4 witness: releasing at pixel (200, 200), outside the drop rectangle,
discards the concrete mid-session drag. -/
theorem drop_outside_region_discards_witness :
    (endDrag optsXY midSessionState 200 200 wideRect).seriesData =
      midSessionState.seriesData ∧
    (endDrag optsXY midSessionState 200 200 wideRect).cbCalls = midSessionState.cbCalls ∧
    (endDrag optsXY midSessionState 200 200 wideRect).renderCount =
      midSessionState.renderCount ∧
    (endDrag optsXY midSessionState 200 200 wideRect).dragged = none ∧
    (endDrag optsXY midSessionState 200 200 wideRect).marker =
      midSessionState.marker.destroy :=
  drop_outside_region_discards optsXY midSessionState pt00 200 200 wideRect rfl (by decide)

/-- C5: with the drop inside the region and a non-zero delta, a configured
update callback returning strictly false vetoes the commit — data and
render count unchanged — while cleanup still proceeds (marker destroyed,
dragged cleared); any return value other than strict false lets the commit
happen (data written, exactly one more re-render). -/
theorem callback_strict_false_vetoes_commit (opts : Options) (st : DragState)
    (d : Element) (cx cy : ℚ) (r : Rect) (f : DeltaInfo → JsRet) (delta : DeltaInfo)
    (h : st.dragged = some d) (hin : inRect r cx cy = true)
    (hdelta : calcDelta st = some delta) (hch : delta.changed = true)
    (hcb : opts.updateCallback = some f) :
    ((f delta).isStrictFalse = true →
      (endDrag opts st cx cy r).seriesData = st.seriesData ∧
      (endDrag opts st cx cy r).renderCount = st.renderCount ∧
      (endDrag opts st cx cy r).cbCalls = st.cbCalls + 1 ∧
      (endDrag opts st cx cy r).marker = st.marker.destroy ∧
      (endDrag opts st cx cy r).dragged = none) ∧
    ((f delta).isStrictFalse = false →
      (endDrag opts st cx cy r).seriesData =
        writePoint st.seriesData d.indices delta.newData ∧
      (endDrag opts st cx cy r).renderCount = st.renderCount + 1 ∧
      (endDrag opts st cx cy r).cbCalls = st.cbCalls + 1 ∧
      (endDrag opts st cx cy r).marker = st.marker.destroy ∧
      (endDrag opts st cx cy r).dragged = none) := by
  constructor <;> intro hf <;> simp [endDrag, h, hin, hdelta, hch, hcb, hf]

/-- Mid-drag state of the veto scenario: same cycle as `cycleMid` but with
the always-false callback configured. -/
def vetoMid : DragState := moveDrag optsVeto (startDrag sessionReady pt00 0 0 0) 1 1

/-- The delta computed at the end of the veto scenario. -/
def vetoDelta : DeltaInfo := (calcDelta vetoMid).getD defaultDelta

/-- C5 witness: the veto branch of the theorem at the concrete cycle whose
callback returns strictly false. -/
theorem callback_strict_false_vetoes_commit_witness :
    (endDrag optsVeto vetoMid 1 1 wideRect).seriesData = vetoMid.seriesData ∧
    (endDrag optsVeto vetoMid 1 1 wideRect).renderCount = vetoMid.renderCount ∧
    (endDrag optsVeto vetoMid 1 1 wideRect).cbCalls = vetoMid.cbCalls + 1 ∧
    (endDrag optsVeto vetoMid 1 1 wideRect).marker = vetoMid.marker.destroy ∧
    (endDrag optsVeto vetoMid 1 1 wideRect).dragged = none :=
  (callback_strict_false_vetoes_commit optsVeto vetoMid pt00 1 1 wideRect
      (fun _ => JsRet.bool false) vetoDelta rfl (by decide) rfl
      (by simp [vetoDelta, vetoMid, sessionReady, calcDelta, moveDrag, startDrag, initState,
        Marker.create, Marker.setPosition, readPoint, Obj.lookup, optsVeto, Options.axisX,
        Options.axisY, char_x_toLower, char_y_toLower, chartOnePoint, pt00, axisXmin0,
        axisYmin5, createConverter])
      rfl).1 rfl

/-- C8: a committing pointer-up stores exactly `delta.newData` — the
shallow merge of the old data point with the computed x and y — in the
series slot of the dragged point, and every field of the old data point
other than x and y is preserved unchanged in the committed value. -/
theorem commit_stores_shallow_merge (opts : Options) (st : DragState) (d : Element)
    (cx cy : ℚ) (r : Rect) (delta : DeltaInfo) (k : String)
    (h : st.dragged = some d) (hin : inRect r cx cy = true)
    (hdelta : calcDelta st = some delta) (hch : delta.changed = true)
    (hveto : ∀ f, opts.updateCallback = some f → (f delta).isStrictFalse = false)
    (hkx : k ≠ "x") (hky : k ≠ "y") :
    readPoint (endDrag opts st cx cy r).seriesData d.indices = some delta.newData ∧
    delta.newData.lookup k = delta.oldData.lookup k := by
  obtain ⟨d₂, me, conv, x0, y0, hd₂, hme, hconv, hdata, hx, hy, hnew⟩ :=
    calcDelta_spec st delta hdelta
  rw [h] at hd₂
  injection hd₂ with hd₂
  subst hd₂
  constructor
  · have hstore : (endDrag opts st cx cy r).seriesData =
        writePoint st.seriesData d.indices delta.newData := by
      cases hcb : opts.updateCallback with
      | none => simp [endDrag, h, hin, hdelta, hch, hcb]
      | some f => simp [endDrag, h, hin, hdelta, hch, hcb, hveto f hcb]
    rw [hstore]
    exact readPoint_writePoint _ _ _ _ hdata
  · rw [hnew]
    show ((delta.oldData.setField "x" (x0 + conv.convertX (me.pos.1 - d.rect.left))).setField
      "y" (y0 + conv.convertY (d.rect.top - me.pos.2))).lookup k = delta.oldData.lookup k
    rw [Obj.lookup_setField_ne _ _ _ _ hky, Obj.lookup_setField_ne _ _ _ _ hkx]

/-- C8 witness: in the concrete committed cycle the stored point is the
merge, and its `meta` field survives. -/
theorem commit_stores_shallow_merge_witness :
    readPoint (endDrag optsXY cycleMid 1 1 wideRect).seriesData pt00.indices =
      some cycleDelta.newData ∧
    cycleDelta.newData.lookup "meta" = cycleDelta.oldData.lookup "meta" :=
  commit_stores_shallow_merge optsXY cycleMid pt00 1 1 wideRect cycleDelta "meta" rfl
    (by decide) rfl
    (by simp [cycleDelta, cycleMid, sessionReady, calcDelta, moveDrag, startDrag, initState,
      Marker.create, Marker.setPosition, readPoint, Obj.lookup, optsXY, Options.axisX,
      Options.axisY, char_x_toLower, char_y_toLower, chartOnePoint, pt00, axisXmin0,
      axisYmin5, createConverter])
    (fun f hf => Option.noConfusion hf) (by decide) (by decide)

/-- C2: the claim says a full drag cycle by pixel delta (dx, dy) = (1, 1)
inside the drop region commits `(x0 + convertX(dx), y0 - convertY(dy))`.
In the concrete cycle — point (0, 0), x axis range min 0 max 10 over 10
pixels, y axis range min 5 max 15 over 10 pixels — the code stores
x = 1 (matching `x0 + convertX(1)`), but stores y = 4 instead of the
claimed `0 - convertY(1) = -6`: `convertY` adds the y-axis minimum, so the
committed y is `y0 + convertY(-dy) = y0 + minY - dy*ratioY`, which shifts
every commit by the axis minimum.  Exactly one re-render is requested. -/
theorem full_cycle_commits_y_shifted_by_axis_min :
    (readPoint cycleEnd.seriesData (0, 0)).bind (fun o => o.lookup "x") = some 1 ∧
    (readPoint cycleEnd.seriesData (0, 0)).bind (fun o => o.lookup "y") = some 4 ∧
    (4 : ℚ) ≠ 0 - (createConverter axisXmin0 axisYmin5).convertY 1 ∧
    cycleEnd.renderCount = 1 := by
  norm_num [cycleEnd, cycleMid, sessionReady, endDrag, moveDrag, startDrag, calcDelta,
    readPoint, writePoint, initState, Marker.create, Marker.setPosition, Marker.destroy,
    Obj.extendWith, Obj.setField, Obj.lookup, inRect, createConverter, Converter.convertX,
    Converter.convertY, Options.axisX, Options.axisY, optsXY, chartOnePoint, pt00, wideRect,
    axisXmin0, axisYmin5, char_x_toLower, char_y_toLower]
  all_goals decide

/-- Idle state for the restricted-axis scenario: x axis min 5, y axis
min 0. -/
def c6Ready : DragState :=
  { initState chartOnePoint with converter := some (createConverter axisXmin5 axisYmin0) }

/-- Mid-drag state with only the y axis enabled: pointer-down on `pt00` at
(0, 0), then a move to pixel (3, 1) — 3 pixels of horizontal movement. -/
def c6Mid : DragState := moveDrag optsY (startDrag c6Ready pt00 0 0 0) 3 1

/-- End of the restricted-axis cycle: pointer-up at (3, 1) inside the drop
rectangle. -/
def c6End : DragState := endDrag optsY c6Mid 3 1 wideRect

/-- C6: with the x axis disabled (axis = y) the marker's x position indeed
stays frozen at the dragged element's left edge (0) under horizontal
pointer movement, but the committed x value is not the original x: since
`convertX(0) = minX`, the commit stores `x0 + minX = 5` instead of
`x0 = 0` whenever the x-axis minimum is non-zero. -/
theorem disabled_x_axis_still_shifts_committed_x :
    c6Mid.marker.element = some { attached := true, pos := (0, 1) } ∧
    (readPoint c6End.seriesData (0, 0)).bind (fun o => o.lookup "x") = some 5 ∧
    (5 : ℚ) ≠ 0 ∧
    c6End.renderCount = 1 := by
  norm_num [c6End, c6Mid, c6Ready, endDrag, moveDrag, startDrag, calcDelta,
    readPoint, writePoint, initState, Marker.create, Marker.setPosition, Marker.destroy,
    Obj.extendWith, Obj.setField, Obj.lookup, inRect, createConverter, Converter.convertX,
    Converter.convertY, Options.axisX, Options.axisY, optsY, chartOnePoint, pt00, wideRect,
    axisXmin5, axisYmin0, char_x_toLower, char_y_toLower]
  all_goals decide
